import Mathlib

/-!
Shallow embedding of the LUKS+TPM hardware manager of ironic-python-agent
(`ironic_python_agent/hardware_managers/luks_tpm.py` and
`ironic_python_agent/hardware_managers/luks/luks_utils.py`), together with
theorems settling the behavioural claims about it.

External effects (running `sgdisk`, `cryptsetup`, `lsblk`, `ln`, the TPM
key helpers, `disk_utils` queries) are modelled by passing their outcomes
in explicitly: a successful command is `Except.ok` and a raised Python
exception is `Except.error`.  Python exception flow (`try`/`except` with
`oslo_utils.excutils.save_and_reraise_exception`) is modelled by explicit
`Except` plumbing, including the fact that when the body of the `with`
block inside an `except` handler itself raises, the original exception is
dropped and the new one propagates.
-/

set_option autoImplicit false

namespace LuksTpm

/-- Python exceptions that can flow through the embedded code.  The
constructors carry no message payloads; which constructor is raised where
is what the claims depend on. -/
inductive PyErr where
  /-- `ironic_lib.processutils`-style failure of an executed command. -/
  | processExecutionError : String → PyErr
  /-- `ironic_lib.exception.InstanceDeployFailure`, raised by
  `detect_root_partition_on_device` when no typecode matches. -/
  | instanceDeployFailure : PyErr
  /-- Python `UnboundLocalError`, naming the local variable that was read
  before assignment. -/
  | unboundLocal : String → PyErr
  /-- Python `IndexError` from sequence indexing. -/
  | indexError : PyErr
  /-- Python `ValueError`, e.g. from `int()` on a non-numeric string. -/
  | valueError : PyErr
  /-- Python `ZeroDivisionError`. -/
  | zeroDivisionError : PyErr
deriving DecidableEq, Repr

/-- A Python value as far as truthiness testing is concerned: either a
`bool`, or a function object (which Python always treats as truthy,
whether or not calling it would return `True`).  The `Bool` carried by
`func` records what the function would return if it were called. -/
inductive PyVal where
  | bool : Bool → PyVal
  | func : Bool → PyVal
deriving DecidableEq, Repr

/-- Python truthiness: `bool b` is `b`; a function object is always truthy. -/
def PyVal.truthy : PyVal → Bool
  | .bool b => b
  | .func _ => true

/-- Python `and`: returns the left operand when it is falsy, otherwise the
right operand. -/
def pyAnd (a b : PyVal) : PyVal :=
  if a.truthy then b else a

/-- `_detect_dependency` of `luks_tpm.py`.  The source assigns the
functions `luks.check_luks_compatibility` and `tpm.check_tpm_compatibility`
to locals WITHOUT calling them (no parentheses) and `and`s the two
function objects.  `luksCheckResult` / `tpmCheckResult` are the values the
two checks would report if they were actually called. -/
def detect_dependency (luksCheckResult tpmCheckResult : Bool) : PyVal :=
  let luks_compatibility := PyVal.func luksCheckResult
  let tpm_conpatibility := PyVal.func tpmCheckResult
  pyAnd luks_compatibility tpm_conpatibility

/-- Modelled from the spec: the hardware-support levels of the
surrounding provisioning framework (`ironic_python_agent.hardware`, not
under `src/`): `NONE` is Unsupported, the others advertise support. -/
inductive HardwareSupport where
  | NONE
  | GENERIC
  | MAINLINE
  | SERVICE_PROVIDER
deriving DecidableEq, Repr

/-- `LuksTpmHardwareManager.evaluate_hardware_support`: `MAINLINE` when
`_detect_dependency()` is truthy, else `NONE`. -/
def evaluate_hardware_support (luksCheckResult tpmCheckResult : Bool) :
    HardwareSupport :=
  if (detect_dependency luksCheckResult tpmCheckResult).truthy then
    HardwareSupport.MAINLINE
  else
    HardwareSupport.NONE

/-- `check_luks_compatibility` of `luks_utils.py`: unconditionally `True`. -/
def check_luks_compatibility : Bool := true

/-- The number of header sectors computed by `_grow_part`:
`int(32 * 1024 * 1024 / sector_size)`.  Python's `/` is float division and
`int()` truncates toward zero; for every positive integer `sector_size`
the result equals natural floor division `33554432 / sector_size`, because
the quotient would have to lie within `2 ^ -28` of an integer from below
for the float rounding to differ from truncation, which is impossible for
integer operands of this size. -/
def luks_header_sector_size (sector_size : Nat) : Nat :=
  32 * 1024 * 1024 / sector_size

/-- Python sequence indexing `xs[i]`: raises `IndexError` when out of
range. -/
def pyIndex {α : Type} (xs : List α) (i : Nat) : Except PyErr α :=
  match xs[i]? with
  | some x => Except.ok x
  | none => Except.error PyErr.indexError

/-- Accumulate decimal digits; `none` as soon as a non-digit appears. -/
def parseDigits (cs : List Char) : Option Nat :=
  cs.foldl
    (fun acc c =>
      match acc with
      | none => none
      | some n => if c.isDigit then some (n * 10 + (c.toNat - 48)) else none)
    (some 0)

/-- Python `int(s)` on the nonnegative decimal strings produced by
`sgdisk`: the parsed value, or `ValueError` when `s` is empty or contains
a non-digit. -/
def pyInt (s : String) : Except PyErr Nat :=
  if s.toList.isEmpty then Except.error PyErr.valueError
  else
    match parseDigits s.toList with
    | some n => Except.ok n
    | none => Except.error PyErr.valueError

/-- `re.split(" ", ·)` on a list of characters: split at every single
occurrence of the separator, keeping empty pieces. -/
def splitCharsOn (sep : Char) : List Char → List (List Char)
  | [] => [[]]
  | c :: cs =>
    match splitCharsOn sep cs with
    | [] => if c = sep then [[], []] else [[c]]
    | w :: ws => if c = sep then [] :: w :: ws else (c :: w) :: ws

/-- `re.split(" ", s)` as used by `_grow_part` and
`detect_root_partition_on_device`. -/
def pySplitSpace (s : String) : List String :=
  (splitCharsOn ' ' s.toList).map (fun cs => String.mk cs)

/-- Outcomes of the external calls `_grow_part` makes, in program order:
`disk_utils.get_dev_sector_size(device)`, `sgdisk -i idx device` (its
stdout pre-split into lines), and the final `sgdisk -e -d … -n …` rewrite. -/
structure GrowPartEnv where
  sector_size_result : Except PyErr Nat
  sgdisk_info_result : Except PyErr (List String)
  sgdisk_rewrite_result : Except PyErr Unit

/-- The argument bundle `_grow_part` hands to `sgdisk -e -d delete_index
-n new_index:new_first:new_last`; `new_first` and `new_last` are the
strings the source interpolates. -/
structure SgdiskRewriteArgs where
  delete_index : Nat
  new_index : Nat
  new_first : String
  new_last : String
deriving DecidableEq, Repr

/-- The `except` handler of `_grow_part`.  Its `LOG.error` call reads the
locals `first_sector` and `last_sector`; when the exception was raised
before one of them was assigned, evaluating the log-argument dict raises
`UnboundLocalError` inside the `with save_and_reraise_exception()` block,
and `oslo_utils` then drops the original exception and lets the new one
propagate.  When both locals are bound, the handler logs and re-raises the
original exception. -/
def grow_part_handler (orig : PyErr) (first_sector last_sector : Option String) :
    Except PyErr Unit :=
  match first_sector with
  | none => Except.error (PyErr.unboundLocal "first_sector")
  | some _ =>
    match last_sector with
    | none => Except.error (PyErr.unboundLocal "last_sector")
    | some _ => Except.error orig

/-- `_grow_part` of `luks_tpm.py`.  Returns the overall result together
with the argument bundle of the `sgdisk` rewrite command if that command
was reached (`none` when execution failed before it).  Mirrors the source
line by line: sector-size lookup, header-sector arithmetic, `sgdisk -i`
output parsing via `part_info.splitlines()` indices 2 and 3 and
`re.split(" ", line)[2]`, then the delete-and-recreate rewrite with the
same index, the same first-sector string, and the grown last sector. -/
def grow_part_run (idx_num : Nat) (env : GrowPartEnv) :
    Except PyErr Unit × Option SgdiskRewriteArgs :=
  match env.sector_size_result with
  | Except.error e => (grow_part_handler e none none, none)
  | Except.ok sector_size =>
    if sector_size = 0 then
      (grow_part_handler PyErr.zeroDivisionError none none, none)
    else
      match env.sgdisk_info_result with
      | Except.error e => (grow_part_handler e none none, none)
      | Except.ok part_info_lines =>
        match pyIndex part_info_lines 2 with
        | Except.error e => (grow_part_handler e none none, none)
        | Except.ok line2 =>
          match pyIndex (pySplitSpace line2) 2 with
          | Except.error e => (grow_part_handler e none none, none)
          | Except.ok first_sector =>
            match pyIndex part_info_lines 3 with
            | Except.error e => (grow_part_handler e (some first_sector) none, none)
            | Except.ok line3 =>
              match pyIndex (pySplitSpace line3) 2 with
              | Except.error e => (grow_part_handler e (some first_sector) none, none)
              | Except.ok last_sector₀ =>
                match pyInt last_sector₀ with
                | Except.error e =>
                  (grow_part_handler e (some first_sector) (some last_sector₀), none)
                | Except.ok last_nat =>
                  let last_sector :=
                    toString (last_nat + luks_header_sector_size sector_size)
                  let args : SgdiskRewriteArgs :=
                    { delete_index := idx_num
                      new_index := idx_num
                      new_first := first_sector
                      new_last := last_sector }
                  match env.sgdisk_rewrite_result with
                  | Except.error e =>
                    (grow_part_handler e (some first_sector) (some last_sector),
                      some args)
                  | Except.ok _ => (Except.ok (), some args)

/-- A GPT partition as seen by the inspector: its 1-based index (the
`number` field of `disk_utils.list_partitions` entries) and the type GUID
string that parsing this partition's `sgdisk --info` output yields. -/
structure Partition where
  number : Nat
  typecode : String
deriving DecidableEq, Repr

/-- The Linux x86-64 root-partition type GUID matched by
`detect_root_partition_on_device`. -/
def root_guid : String := "4F68BCE3-E8CD-4DB1-96E7-FBCAF984B709"

/-- The dict `detect_root_partition_on_device` builds for a match. -/
structure RootPartitionInfo where
  partition_path : String
  index_number : Nat
deriving DecidableEq, Repr

/-- Modelled from the spec: `disk_utils.partition_index_to_path` (not
under `src/`) derives the partition device path from the disk path and
the partition index, e.g. `/dev/sdX` and `2` give `/dev/sdX2`. -/
def partition_index_to_path (disk : String) (num : Nat) : String :=
  disk ++ toString num

/-- The scan loop of `detect_root_partition_on_device`: starting from
`root_partition_info = None`, each partition whose typecode equals the
root GUID overwrites the accumulator, so the last match in scan order
wins.  `disk_utils.list_partitions` (not under `src/`) supplies `parts`;
per the spec its order follows partition index ascending. -/
def scan_step (disk : String) (root_partition_info : Option RootPartitionInfo)
    (part : Partition) : Option RootPartitionInfo :=
  if part.typecode = root_guid then
    some { partition_path := partition_index_to_path disk part.number
           index_number := part.number }
  else root_partition_info

/-- The whole scan of `detect_root_partition_on_device`: fold
`scan_step` over the partitions starting from `None`. -/
def scan_partitions (disk : String) (parts : List Partition) :
    Option RootPartitionInfo :=
  parts.foldl (scan_step disk) none

/-- `detect_root_partition_on_device` of `luks_tpm.py`.  After the scan,
a missing match raises `InstanceDeployFailure` inside the `try`; then a
best-effort `ln -s <partition_path> /tmp/root_partition` runs, whose
outcome is `ln_result`.  Both failures land in the same `except` handler,
which logs and re-raises, so either one propagates to the caller. -/
def detect_root_partition_on_device (disk : String) (parts : List Partition)
    (ln_result : Except PyErr Unit) : Except PyErr RootPartitionInfo :=
  match scan_partitions disk parts with
  | none => Except.error PyErr.instanceDeployFailure
  | some root_partition_info =>
    match ln_result with
    | Except.error e => Except.error e
    | Except.ok _ => Except.ok root_partition_info

/-- Outcomes of the two `cryptsetup` invocations made by
`luks_encrypt_devcie_partition` / `luks_re_encrypt_partition`: the primary
step (`encrypt` resp. `reencrypt`) and the secondary `luksAddKey` step. -/
structure CryptEnv where
  primary_result : Except PyErr Unit
  addkey_result : Except PyErr Unit

/-- One `cryptsetup` invocation, for recording call traces. -/
inductive CryptCall where
  /-- `cryptsetup encrypt --type luks2 --key-file key_file partition` -/
  | encrypt : String → String → CryptCall
  /-- `cryptsetup reencrypt --encrypt --type luks2 --reduce-device-size
  32M --key-file key_file partition` -/
  | reencrypt : String → String → CryptCall
  /-- `cryptsetup luksAddKey --type luks2 --key-file key_file partition
  new_key_file` -/
  | luksAddKey : String → String → String → CryptCall
  /-- `cryptsetup open --type luks2 --key-file key_file partition
  map_target` -/
  | openMapping : String → String → String → CryptCall
deriving DecidableEq, Repr

/-- `luks_encrypt_devcie_partition` of `luks_utils.py` (sic): runs the
primary `cryptsetup encrypt`, and only if it returned performs the
`luksAddKey` registration; any exception is logged and re-raised by the
`except` handler.  Returns the result and the trace of `cryptsetup`
invocations actually made. -/
def luks_encrypt_devcie_partition (key_file partition : String)
    (env : CryptEnv) : Except PyErr Unit × List CryptCall :=
  match env.primary_result with
  | Except.error e => (Except.error e, [CryptCall.encrypt key_file partition])
  | Except.ok _ =>
    match env.addkey_result with
    | Except.error e =>
      (Except.error e,
        [CryptCall.encrypt key_file partition,
          CryptCall.luksAddKey key_file partition key_file])
    | Except.ok _ =>
      (Except.ok (),
        [CryptCall.encrypt key_file partition,
          CryptCall.luksAddKey key_file partition key_file])

/-- `luks_re_encrypt_partition` of `luks_utils.py`: like
`luks_encrypt_devcie_partition` with `cryptsetup reencrypt` as the
primary step. -/
def luks_re_encrypt_partition (key_file partition : String)
    (env : CryptEnv) : Except PyErr Unit × List CryptCall :=
  match env.primary_result with
  | Except.error e => (Except.error e, [CryptCall.reencrypt key_file partition])
  | Except.ok _ =>
    match env.addkey_result with
    | Except.error e =>
      (Except.error e,
        [CryptCall.reencrypt key_file partition,
          CryptCall.luksAddKey key_file partition key_file])
    | Except.ok _ =>
      (Except.ok (),
        [CryptCall.reencrypt key_file partition,
          CryptCall.luksAddKey key_file partition key_file])

/-- `luks_open_partition` of `luks_utils.py`: runs `cryptsetup open` with
the given key file, partition and mapper target; on failure the handler
logs and re-raises, on success the function returns
`'/dev/mapper/' + map_target`. -/
def luks_open_partition (key_file partition map_target : String)
    (open_result : Except PyErr Unit) : Except PyErr String :=
  match open_result with
  | Except.error e => Except.error e
  | Except.ok _ => Except.ok ("/dev/mapper/" ++ map_target)

/-- `LuksTpmHardwareManager.config_drive_open`: opens the config-drive
partition under the fixed mapper name `config-2` with the TPM-unsealed
key file. -/
def config_drive_open (unsealed_key_file conf_part : String)
    (open_result : Except PyErr Unit) : Except PyErr String :=
  luks_open_partition unsealed_key_file conf_part "config-2" open_result

/-- A step of the whole-disk-image workflow, for recording which
geometry/encryption calls were made. -/
inductive WorkflowCall where
  /-- `_grow_part(root_partition_info)` was invoked, for this index. -/
  | growPart : Nat → WorkflowCall
  /-- `luks.luks_re_encrypt_partition(key_file, partition_path)` was
  invoked. -/
  | reEncryptPartition : String → String → WorkflowCall
deriving DecidableEq, Repr

/-- `LuksTpmHardwareManager.whole_disk_image_encryption`: detect the root
partition, grow it, then re-encrypt it with a freshly generated TPM key
file (`key_file` stands for `tpm.check_and_generate_key_file()`, not
under `src/`).  Each step's exception aborts the workflow; the trace
records which of `_grow_part` and `luks_re_encrypt_partition` were
reached. -/
def whole_disk_image_encryption (device : String) (parts : List Partition)
    (ln_result : Except PyErr Unit) (key_file : String)
    (grow_env : GrowPartEnv) (crypt_env : CryptEnv) :
    Except PyErr Unit × List WorkflowCall :=
  match detect_root_partition_on_device device parts ln_result with
  | Except.error e => (Except.error e, [])
  | Except.ok root_partition_info =>
    match (grow_part_run root_partition_info.index_number grow_env).1 with
    | Except.error e => (Except.error e, [WorkflowCall.growPart root_partition_info.index_number])
    | Except.ok _ =>
      ((luks_re_encrypt_partition key_file root_partition_info.partition_path crypt_env).1,
        [WorkflowCall.growPart root_partition_info.index_number,
          WorkflowCall.reEncryptPartition key_file root_partition_info.partition_path])

/-- `LuksTpmHardwareManager.config_drive_encryption`: re-encrypts the
config-drive partition in place with a freshly generated TPM key file; no
geometry adjustment. -/
def config_drive_encryption (key_file conf_part : String)
    (crypt_env : CryptEnv) : Except PyErr Unit :=
  (luks_re_encrypt_partition key_file conf_part crypt_env).1

/-- `LuksTpmHardwareManager.partition_image_root_partition_encryption`:
the body is `LOG.error(...)` followed by `pass` (the encryption calls are
commented out), so the method logs and returns `None` — a silent success
toward the caller.  Returns the caller-visible result and the log
messages emitted. -/
def partition_image_root_partition_encryption (partition : String) :
    Except PyErr Unit × List String :=
  (Except.ok (), ["ERROR: Partition image encryption is not yet implementd!"])

/-- `LuksTpmHardwareManager.partition_image_initrd_customization`: body
is `LOG.error(...)` then `pass`; returns `None` silently. -/
def partition_image_initrd_customization (partition : String) :
    Except PyErr Unit × List String :=
  (Except.ok (), ["ERROR: Partition image encryption is not yet implementd!"])

/-- `LuksTpmHardwareManager.partition_image_open_root_partition`: body is
`LOG.error(...)` then `pass`; although documented to return a mountable
device path, it returns `None` (modelled as `Option.none`) silently. -/
def partition_image_open_root_partition (partition : String) :
    Except PyErr (Option String) × List String :=
  (Except.ok none, ["ERROR: Partition image encryption is not yet implementd!"])

/-! ## Helper lemmas -/

/-- Folding the scan step over partitions none of which carries the root
GUID leaves the accumulator unchanged. -/
theorem foldl_scan_step_no_match {disk : String} {parts : List Partition}
    (h : ∀ p ∈ parts, ¬ p.typecode = root_guid)
    (acc : Option RootPartitionInfo) :
    parts.foldl (scan_step disk) acc = acc := by
  induction parts generalizing acc with
  | nil => rfl
  | cons x xs ih =>
    have hx : scan_step disk acc x = acc := by
      simp [scan_step, h x (List.mem_cons_self x xs)]
    simp only [List.foldl_cons, hx]
    exact ih (fun p hp => h p (List.mem_cons_of_mem _ hp)) acc

/-- On an index-ascending partition list, folding the scan step ends with
the record of the root-typed partition of greatest index, whatever the
accumulator started as. -/
theorem foldl_scan_step_last_match {disk : String} {parts : List Partition}
    {p : Partition}
    (hs : parts.Pairwise (fun a b => a.number < b.number))
    (hmem : p ∈ parts) (hroot : p.typecode = root_guid)
    (hmax : ∀ q ∈ parts, q.typecode = root_guid → q.number ≤ p.number)
    (acc : Option RootPartitionInfo) :
    parts.foldl (scan_step disk) acc =
      some { partition_path := partition_index_to_path disk p.number
             index_number := p.number } := by
  induction parts generalizing acc with
  | nil => cases hmem
  | cons x xs ih =>
    rcases List.mem_cons.mp hmem with hpx | hpxs
    · subst hpx
      have hxs : ∀ q ∈ xs, ¬ q.typecode = root_guid := by
        intro q hq hqroot
        have h1 : p.number < q.number := (List.pairwise_cons.mp hs).1 q hq
        have h2 : q.number ≤ p.number :=
          hmax q (List.mem_cons_of_mem _ hq) hqroot
        exact absurd h1 (Nat.not_lt.mpr h2)
      simp only [List.foldl_cons]
      rw [foldl_scan_step_no_match hxs]
      simp [scan_step, hroot]
    · simp only [List.foldl_cons]
      exact ih (List.pairwise_cons.mp hs).2 hpxs
        (fun q hq hqr => hmax q (List.mem_cons_of_mem _ hq) hqr) _

/-! ## Claim theorems -/

/-- C1: the claim says every invocation of the three declared
partition-image workflows reports a distinct NotImplemented failure and
never returns an empty/silent success.  The code does the opposite: each
stub logs an error message and falls through `pass`, returning a plain
success (`None`) to the caller — evaluated here at the concrete partition
path `/dev/sda1`. -/
theorem C1_partition_image_stubs_silent_success :
    (partition_image_root_partition_encryption "/dev/sda1").1 = Except.ok ()
      ∧ (partition_image_initrd_customization "/dev/sda1").1 = Except.ok ()
      ∧ (partition_image_open_root_partition "/dev/sda1").1 = Except.ok none :=
  ⟨rfl, rfl, rfl⟩

/-- C2: the claim says `evaluate_hardware_support` returns Supported iff
both compatibility checks report true, and NONE when either reports
false.  In the code `_detect_dependency` never calls the checks: it
`and`s the two function objects, which are always truthy, so the manager
reports `MAINLINE` for every combination of would-be check results —
including when the TPM check (or both checks) would report false. -/
theorem C2_evaluate_hardware_support_always_mainline
    (luksCheckResult tpmCheckResult : Bool) :
    evaluate_hardware_support luksCheckResult tpmCheckResult =
      HardwareSupport.MAINLINE := rfl

/-- C3 counterexample: the claim says header sectors are computed as the
ceiling of 32 MiB over the sector size for every positive sector size.
At sector size 3 the code computes the truncated (floor) quotient
11184810, while the ceiling is 11184811. -/
theorem C3_counterexample_sector_size_three :
    luks_header_sector_size 3 = 11184810
      ∧ (32 * 1024 * 1024 + 3 - 1) / 3 = 11184811
      ∧ luks_header_sector_size 3 ≠ (32 * 1024 * 1024 + 3 - 1) / 3 := by
  refine ⟨by norm_num [luks_header_sector_size], by norm_num, ?_⟩
  norm_num [luks_header_sector_size]

/-- C3 amended: for every positive sector size `_grow_part` computes the
FLOOR of 32 MiB divided by the sector size (Python `int()` truncation of
the quotient), characterised here by the floor inequalities; for sector
size 512 this is exactly 65536 sectors and for 4096 exactly 8192. -/
theorem C3_header_sectors_floor (sector_size : Nat) (hs : 0 < sector_size) :
    luks_header_sector_size sector_size * sector_size ≤ 32 * 1024 * 1024
      ∧ 32 * 1024 * 1024 <
          (luks_header_sector_size sector_size + 1) * sector_size
      ∧ luks_header_sector_size 512 = 65536
      ∧ luks_header_sector_size 4096 = 8192 := by
  refine ⟨Nat.div_mul_le_self _ _, ?_, by norm_num [luks_header_sector_size],
    by norm_num [luks_header_sector_size]⟩
  exact (Nat.div_lt_iff_lt_mul hs).mp (Nat.lt_succ_self _)

/-- C3 witness: the floor characterisation and the two concrete values,
instantiated at sector size 512. -/
theorem C3_header_sectors_floor_witness :
    luks_header_sector_size 512 * 512 ≤ 32 * 1024 * 1024
      ∧ 32 * 1024 * 1024 < (luks_header_sector_size 512 + 1) * 512
      ∧ luks_header_sector_size 512 = 65536
      ∧ luks_header_sector_size 4096 = 8192 :=
  C3_header_sectors_floor 512 (by norm_num)

/-- C4: on a disk whose partition list is index-ascending and contains a
partition with the Linux-root type GUID, `detect_root_partition_on_device`
returns the path and index of the last matching partition encountered
(the matching partition of greatest index); when exactly one partition
matches, that hypothesis holds trivially of it, so the unique match is
returned. -/
theorem C4_detect_returns_last_match (disk : String) (parts : List Partition)
    (p : Partition)
    (hs : parts.Pairwise (fun a b => a.number < b.number))
    (hmem : p ∈ parts) (hroot : p.typecode = root_guid)
    (hmax : ∀ q ∈ parts, q.typecode = root_guid → q.number ≤ p.number) :
    detect_root_partition_on_device disk parts (Except.ok ()) =
      Except.ok { partition_path := partition_index_to_path disk p.number
                  index_number := p.number } := by
  unfold detect_root_partition_on_device scan_partitions
  rw [foldl_scan_step_last_match hs hmem hroot hmax]

/-- C4 witness: the spec scenario - partitions 1, 2, 3 with type GUIDs
A, Linux-root, C; the detector returns partition 2's path and index. -/
theorem C4_detect_returns_last_match_witness :
    detect_root_partition_on_device "/dev/sdX"
        [{ number := 1, typecode := "A" },
          { number := 2, typecode := root_guid },
          { number := 3, typecode := "C" }] (Except.ok ()) =
      Except.ok { partition_path := partition_index_to_path "/dev/sdX" 2
                  index_number := 2 } :=
  C4_detect_returns_last_match "/dev/sdX"
    [{ number := 1, typecode := "A" },
      { number := 2, typecode := root_guid },
      { number := 3, typecode := "C" }]
    { number := 2, typecode := root_guid }
    (by decide) (by decide) rfl (by decide)

/-- C5: when no partition on the disk carries the Linux-root type GUID,
`detect_root_partition_on_device` fails with `InstanceDeployFailure`, and
the whole-disk-image workflow aborts with that error having made no
`_grow_part` and no `luks_re_encrypt_partition` call (empty call trace). -/
theorem C5_no_match_aborts_workflow (device : String)
    (parts : List Partition) (ln_result : Except PyErr Unit)
    (key_file : String) (grow_env : GrowPartEnv) (crypt_env : CryptEnv)
    (h : ∀ p ∈ parts, ¬ p.typecode = root_guid) :
    detect_root_partition_on_device device parts ln_result =
        Except.error PyErr.instanceDeployFailure
      ∧ whole_disk_image_encryption device parts ln_result key_file
          grow_env crypt_env =
        (Except.error PyErr.instanceDeployFailure, []) := by
  have hscan : scan_partitions device parts = none :=
    foldl_scan_step_no_match h none
  have hdet : detect_root_partition_on_device device parts ln_result =
      Except.error PyErr.instanceDeployFailure := by
    unfold detect_root_partition_on_device
    rw [hscan]
  refine ⟨hdet, ?_⟩
  unfold whole_disk_image_encryption
  rw [hdet]

/-- C5 witness: a disk with a single non-root partition; the detector
fails and the workflow trace stays empty. -/
theorem C5_no_match_aborts_workflow_witness :
    detect_root_partition_on_device "/dev/sda"
        [{ number := 1, typecode := "A" }] (Except.ok ()) =
        Except.error PyErr.instanceDeployFailure
      ∧ whole_disk_image_encryption "/dev/sda"
          [{ number := 1, typecode := "A" }] (Except.ok ()) "/tmp/key"
          { sector_size_result := Except.ok 512
            sgdisk_info_result := Except.ok []
            sgdisk_rewrite_result := Except.ok () }
          { primary_result := Except.ok (), addkey_result := Except.ok () } =
        (Except.error PyErr.instanceDeployFailure, []) :=
  C5_no_match_aborts_workflow "/dev/sda" [{ number := 1, typecode := "A" }]
    (Except.ok ()) "/tmp/key"
    { sector_size_result := Except.ok 512
      sgdisk_info_result := Except.ok []
      sgdisk_rewrite_result := Except.ok () }
    { primary_result := Except.ok (), addkey_result := Except.ok () }
    (by decide)

/-- C6: in both `luks_encrypt_devcie_partition` and
`luks_re_encrypt_partition`, when the primary `cryptsetup` step raises,
the call trace consists of the primary invocation alone — no `luksAddKey`
invocation occurs — and the primary failure propagates to the caller. -/
theorem C6_addkey_only_after_primary_success (key_file partition : String)
    (e : PyErr) (env : CryptEnv)
    (h : env.primary_result = Except.error e) :
    (luks_encrypt_devcie_partition key_file partition env).2 =
        [CryptCall.encrypt key_file partition]
      ∧ (luks_re_encrypt_partition key_file partition env).2 =
        [CryptCall.reencrypt key_file partition]
      ∧ (luks_encrypt_devcie_partition key_file partition env).1 =
        Except.error e
      ∧ (luks_re_encrypt_partition key_file partition env).1 =
        Except.error e := by
  simp [luks_encrypt_devcie_partition, luks_re_encrypt_partition, h]

/-- C6 witness: a primary `cryptsetup` failure on `/dev/sda2` leaves a
one-element trace without any `luksAddKey` call. -/
theorem C6_addkey_only_after_primary_success_witness :
    (luks_encrypt_devcie_partition "/tmp/key" "/dev/sda2"
        { primary_result := Except.error (PyErr.processExecutionError "cryptsetup")
          addkey_result := Except.ok () }).2 =
        [CryptCall.encrypt "/tmp/key" "/dev/sda2"]
      ∧ (luks_re_encrypt_partition "/tmp/key" "/dev/sda2"
          { primary_result := Except.error (PyErr.processExecutionError "cryptsetup")
            addkey_result := Except.ok () }).2 =
        [CryptCall.reencrypt "/tmp/key" "/dev/sda2"]
      ∧ (luks_encrypt_devcie_partition "/tmp/key" "/dev/sda2"
          { primary_result := Except.error (PyErr.processExecutionError "cryptsetup")
            addkey_result := Except.ok () }).1 =
        Except.error (PyErr.processExecutionError "cryptsetup")
      ∧ (luks_re_encrypt_partition "/tmp/key" "/dev/sda2"
          { primary_result := Except.error (PyErr.processExecutionError "cryptsetup")
            addkey_result := Except.ok () }).1 =
        Except.error (PyErr.processExecutionError "cryptsetup") :=
  C6_addkey_only_after_primary_success "/tmp/key" "/dev/sda2"
    (PyErr.processExecutionError "cryptsetup")
    { primary_result := Except.error (PyErr.processExecutionError "cryptsetup")
      addkey_result := Except.ok () } rfl

/-- C7: whenever `_grow_part` succeeds, the rewrite it issued deletes and
recreates the entry at the same index, reuses the parsed first-sector
string unchanged as the new start, and sets the new end sector to the old
end sector plus the computed header sectors — which never decreases the
end sector. -/
theorem C7_grow_part_preserves_index_and_start (idx_num sector_size l : Nat)
    (env : GrowPartEnv) (glines : List String) (line2 line3 fstr lstr : String)
    (h1 : env.sector_size_result = Except.ok sector_size)
    (h2 : sector_size ≠ 0)
    (h3 : env.sgdisk_info_result = Except.ok glines)
    (h4 : glines[2]? = some line2)
    (h5 : (pySplitSpace line2)[2]? = some fstr)
    (h6 : glines[3]? = some line3)
    (h7 : (pySplitSpace line3)[2]? = some lstr)
    (h8 : pyInt lstr = Except.ok l)
    (h9 : env.sgdisk_rewrite_result = Except.ok ()) :
    grow_part_run idx_num env =
      (Except.ok (),
        some { delete_index := idx_num
               new_index := idx_num
               new_first := fstr
               new_last := toString (l + luks_header_sector_size sector_size) })
      ∧ l ≤ l + luks_header_sector_size sector_size := by
  refine ⟨?_, Nat.le_add_right _ _⟩
  simp [grow_part_run, pyIndex, h1, h2, h3, h4, h5, h6, h7, h8, h9]

/-- C7 witness: sector size 512 and realistic `sgdisk -i` output with
first sector 2048 and last sector 4095; the rewrite recreates index 2
with start string 2048 and end 4095 + 65536 sectors. -/
theorem C7_grow_part_preserves_index_and_start_witness :
    grow_part_run 2
        { sector_size_result := Except.ok 512
          sgdisk_info_result := Except.ok
            ["Partition GUID code: 4F68BCE3-E8CD-4DB1-96E7-FBCAF984B709 (Linux x86-64 root)",
              "Partition unique GUID: 11111111-2222-3333-4444-555555555555",
              "First sector: 2048 (at 1.0 MiB)",
              "Last sector: 4095 (at 2.0 MiB)"]
          sgdisk_rewrite_result := Except.ok () } =
      (Except.ok (),
        some { delete_index := 2
               new_index := 2
               new_first := "2048"
               new_last := toString (4095 + luks_header_sector_size 512) })
      ∧ 4095 ≤ 4095 + luks_header_sector_size 512 :=
  C7_grow_part_preserves_index_and_start 2 512 4095
    { sector_size_result := Except.ok 512
      sgdisk_info_result := Except.ok
        ["Partition GUID code: 4F68BCE3-E8CD-4DB1-96E7-FBCAF984B709 (Linux x86-64 root)",
          "Partition unique GUID: 11111111-2222-3333-4444-555555555555",
          "First sector: 2048 (at 1.0 MiB)",
          "Last sector: 4095 (at 2.0 MiB)"]
      sgdisk_rewrite_result := Except.ok () }
    ["Partition GUID code: 4F68BCE3-E8CD-4DB1-96E7-FBCAF984B709 (Linux x86-64 root)",
      "Partition unique GUID: 11111111-2222-3333-4444-555555555555",
      "First sector: 2048 (at 1.0 MiB)",
      "Last sector: 4095 (at 2.0 MiB)"]
    "First sector: 2048 (at 1.0 MiB)" "Last sector: 4095 (at 2.0 MiB)"
    "2048" "4095"
    rfl (by decide) rfl rfl rfl rfl rfl rfl rfl

/-- C8: a successful `luks_open_partition` returns the mapper directory
concatenated with the mapper name, for every key file and partition; and
`config_drive_open` uses the fixed mapper name `config-2`, returning
`/dev/mapper/config-2`. -/
theorem C8_open_returns_mapper_path (key_file partition map_target : String)
    (open_result : Except PyErr Unit) (h : open_result = Except.ok ()) :
    luks_open_partition key_file partition map_target open_result =
        Except.ok ("/dev/mapper/" ++ map_target)
      ∧ config_drive_open key_file partition open_result =
        Except.ok "/dev/mapper/config-2" := by
  subst h
  exact ⟨rfl, rfl⟩

/-- C8 witness: opening `/dev/sda3` under mapper name `m` yields
`/dev/mapper/m`, and the config-drive open yields
`/dev/mapper/config-2`. -/
theorem C8_open_returns_mapper_path_witness :
    luks_open_partition "/tmp/key" "/dev/sda3" "m" (Except.ok ()) =
        Except.ok ("/dev/mapper/" ++ "m")
      ∧ config_drive_open "/tmp/key" "/dev/sda3" (Except.ok ()) =
        Except.ok "/dev/mapper/config-2" :=
  C8_open_returns_mapper_path "/tmp/key" "/dev/sda3" "m" (Except.ok ()) rfl

/-- C9: when the scan has found a root partition but the subsequent
`ln -s` link creation raises, `detect_root_partition_on_device` fails
with that error (the shared `except` handler logs and re-raises), rather
than succeeding with the discovered partition. -/
theorem C9_link_failure_fails_detection (disk : String)
    (parts : List Partition) (info : RootPartitionInfo) (e : PyErr)
    (hscan : scan_partitions disk parts = some info) :
    detect_root_partition_on_device disk parts (Except.error e) =
      Except.error e := by
  unfold detect_root_partition_on_device
  rw [hscan]

/-- C9 witness: a single root-typed partition is found, the link step
raises a process-execution error, and detection fails with that error. -/
theorem C9_link_failure_fails_detection_witness :
    detect_root_partition_on_device "/dev/sda"
        [{ number := 1, typecode := root_guid }]
        (Except.error (PyErr.processExecutionError "ln")) =
      Except.error (PyErr.processExecutionError "ln") :=
  C9_link_failure_fails_detection "/dev/sda"
    [{ number := 1, typecode := root_guid }]
    { partition_path := partition_index_to_path "/dev/sda" 1
      index_number := 1 }
    (PyErr.processExecutionError "ln") (by decide)

/-- C10: when the sector-size lookup or the `sgdisk -i` query raises
before `first_sector` was assigned, the `except` handler of `_grow_part`
reads the unbound local, so the call fails with
`UnboundLocalError("first_sector")`; whenever the original exception is a
different one, the original is dropped rather than re-raised. -/
theorem C10_early_failure_raises_unbound_local (idx_num : Nat) (e : PyErr)
    (env : GrowPartEnv)
    (h : env.sector_size_result = Except.error e
        ∨ ∃ n, env.sector_size_result = Except.ok n ∧ n ≠ 0
            ∧ env.sgdisk_info_result = Except.error e) :
    (grow_part_run idx_num env).1 =
        Except.error (PyErr.unboundLocal "first_sector")
      ∧ (e ≠ PyErr.unboundLocal "first_sector" →
          (grow_part_run idx_num env).1 ≠ Except.error e) := by
  have hres : (grow_part_run idx_num env).1 =
      Except.error (PyErr.unboundLocal "first_sector") := by
    rcases h with h1 | ⟨n, h1, h2, h3⟩
    · simp [grow_part_run, h1, grow_part_handler]
    · simp [grow_part_run, h1, h2, h3, grow_part_handler]
  refine ⟨hres, fun hne habs => hne ?_⟩
  rw [hres] at habs
  exact (Except.error.injEq _ _).mp habs.symm

/-- C10 witness: the sector-size lookup raises a process-execution
error; `_grow_part` ends with `UnboundLocalError("first_sector")`, not
with the original error. -/
theorem C10_early_failure_raises_unbound_local_witness :
    (grow_part_run 2
        { sector_size_result :=
            Except.error (PyErr.processExecutionError "lsblk")
          sgdisk_info_result := Except.ok []
          sgdisk_rewrite_result := Except.ok () }).1 =
        Except.error (PyErr.unboundLocal "first_sector")
      ∧ (PyErr.processExecutionError "lsblk" ≠ PyErr.unboundLocal "first_sector" →
          (grow_part_run 2
              { sector_size_result :=
                  Except.error (PyErr.processExecutionError "lsblk")
                sgdisk_info_result := Except.ok []
                sgdisk_rewrite_result := Except.ok () }).1 ≠
            Except.error (PyErr.processExecutionError "lsblk")) :=
  C10_early_failure_raises_unbound_local 2
    (PyErr.processExecutionError "lsblk")
    { sector_size_result := Except.error (PyErr.processExecutionError "lsblk")
      sgdisk_info_result := Except.ok []
      sgdisk_rewrite_result := Except.ok () }
    (Or.inl rfl)

end LuksTpm
